import Mathlib

/-!
Verification of the CPS survey-to-simulation-input pipeline
(`openfisca_us/data/datasets/cps/cps.py`).

The raw tables (person, family, tax unit, SPM unit, household) are embedded
as lists of records carrying the raw fields the pipeline reads.  Each
canonical output column is a Lean function of the raw tables, translated
from the vectorized pandas/numpy expressions in the source.  The only
random step (age jitter) takes its uniform draws as an explicit argument.
Fallible pandas operations (label lookup that raises `KeyError`) are
modelled with `Option`.
-/

namespace CPS

/-- A row of the raw ASEC person table, restricted to the fields the
pipeline reads. -/
structure PersonRow where
  PH_SEQ : Int
  P_SEQ : Int
  PF_SEQ : Int
  TAX_ID : Int
  SPM_ID : Int
  A_FNLWGT : Rat
  A_AGE : Rat
  WSAL_VAL : Rat
  SEMP_VAL : Rat
  FRSE_VAL : Rat
  SS_VAL : Rat
  UC_VAL : Rat
  OI_OFF : Int
  OI_VAL : Rat
deriving DecidableEq, Repr

/-- A row of the raw ASEC family table. -/
structure FamilyRow where
  FH_SEQ : Int
  FFPOS : Int
  FSUP_WGT : Rat
deriving DecidableEq, Repr

/-- A row of the tax-unit table (built upstream from the person table). -/
structure TaxUnitRow where
  TAX_ID : Int
deriving DecidableEq, Repr

/-- A row of the SPM-unit table. -/
structure SpmUnitRow where
  SPM_ID : Int
  SPM_WEIGHT : Rat
  SPM_TOTVAL : Rat
  SPM_SNAPSUB : Rat
  SPM_CAPHOUSESUB : Rat
  SPM_SCHLUNCH : Rat
  SPM_ENGVAL : Rat
  SPM_WICVAL : Rat
  SPM_FICA : Rat
  SPM_FEDTAX : Rat
  SPM_STTAX : Rat
  SPM_CAPWKCCXPNS : Rat
  SPM_MEDXPNS : Rat
  SPM_POVTHRESHOLD : Rat
  SPM_RESOURCES : Rat
deriving DecidableEq, Repr

/-- A row of the raw household table. -/
structure HouseholdRow where
  H_SEQ : Int
  HSUP_WGT : Rat
  GESTFIPS : Int
deriving DecidableEq, Repr

/-! ### Identifier columns (`add_id_variables`, keys part) -/

/-- Synthetic id of a family row: `FH_SEQ * 10 + FFPOS`. -/
def familyRowId (f : FamilyRow) : Int := f.FH_SEQ * 10 + f.FFPOS

/-- Foreign key of a person row into the family table:
`PH_SEQ * 10 + PF_SEQ`. -/
def personFamilyId (p : PersonRow) : Int := p.PH_SEQ * 10 + p.PF_SEQ

/-- `cps["person_id"] = person.PH_SEQ * 100 + person.P_SEQ`. -/
def person_id (ps : List PersonRow) : List Int :=
  ps.map fun p => p.PH_SEQ * 100 + p.P_SEQ

/-- `cps["family_id"] = family.FH_SEQ * 10 + family.FFPOS`. -/
def family_id (fs : List FamilyRow) : List Int :=
  fs.map familyRowId

/-- `cps["household_id"] = household.H_SEQ`. -/
def household_id (hhs : List HouseholdRow) : List Int :=
  hhs.map fun h => h.H_SEQ

/-- `cps["person_tax_unit_id"] = person.TAX_ID`. -/
def person_tax_unit_id (ps : List PersonRow) : List Int :=
  ps.map fun p => p.TAX_ID

/-- `cps["person_spm_unit_id"] = person.SPM_ID`. -/
def person_spm_unit_id (ps : List PersonRow) : List Int :=
  ps.map fun p => p.SPM_ID

/-- `cps["tax_unit_id"] = tax_unit.TAX_ID`. -/
def tax_unit_id (tus : List TaxUnitRow) : List Int :=
  tus.map fun t => t.TAX_ID

/-- `cps["spm_unit_id"] = spm_unit.SPM_ID`. -/
def spm_unit_id (sus : List SpmUnitRow) : List Int :=
  sus.map fun s => s.SPM_ID

/-- `cps["person_household_id"] = person.PH_SEQ`. -/
def person_household_id (ps : List PersonRow) : List Int :=
  ps.map fun p => p.PH_SEQ

/-- `cps["person_family_id"] = person.PH_SEQ * 10 + person.PF_SEQ`. -/
def person_family_id (ps : List PersonRow) : List Int :=
  ps.map personFamilyId

/-! ### Weight columns (`add_id_variables`, weights part) -/

/-- `cps["person_weight"] = person.A_FNLWGT / 1e2`. -/
def person_weight (ps : List PersonRow) : List Rat :=
  ps.map fun p => p.A_FNLWGT / 100

/-- `cps["family_weight"] = family.FSUP_WGT / 1e2`. -/
def family_weight (fs : List FamilyRow) : List Rat :=
  fs.map fun f => f.FSUP_WGT / 100

/-- `cps["spm_unit_weight"] = spm_unit.SPM_WEIGHT / 1e2`. -/
def spm_unit_weight (sus : List SpmUnitRow) : List Rat :=
  sus.map fun s => s.SPM_WEIGHT / 100

/-- `cps["household_weight"] = household.HSUP_WGT / 1e2`. -/
def household_weight (hhs : List HouseholdRow) : List Rat :=
  hhs.map fun h => h.HSUP_WGT / 100

/-! ### Derived tax-unit weight

The source builds `family_weight` as a pandas Series indexed by
`family_id`, selects it by the label array `person_family_id`
(`family_weight[person_family_id]`: every family row whose id equals the
label is returned, in family-row order, and a label with no matching row
raises `KeyError`), then groups the resulting per-person weights by
`person_tax_unit_id` and takes `.first()` of each group; pandas `groupby`
orders the groups by sorted key. -/

/-- All family weights whose `family_id` index label equals `fid`, in
family-row order (pandas label selection on a possibly non-unique index). -/
def lookupFamilyWeights (fs : List FamilyRow) (fid : Int) : List Rat :=
  (fs.filter fun f => familyRowId f = fid).map fun f => f.FSUP_WGT / 100

/-- `family_weight[person_family_id]`: per-person family-weight selection.
`none` models the `KeyError` pandas raises when some person's
`person_family_id` label is absent from the family index. -/
def personsFamilyWeight (ps : List PersonRow) (fs : List FamilyRow) :
    Option (List Rat) :=
  if ps.all fun p => !(lookupFamilyWeights fs (personFamilyId p)).isEmpty then
    some ((ps.map fun p => lookupFamilyWeights fs (personFamilyId p)).flatten)
  else none

/-- Insert an integer into a sorted list, keeping it sorted. -/
def insertSorted (x : Int) : List Int → List Int
  | [] => [x]
  | y :: ys => if x ≤ y then x :: y :: ys else y :: insertSorted x ys

/-- Sort a list of integers ascending (insertion sort). -/
def sortKeys (l : List Int) : List Int := l.foldr insertSorted []

/-- pandas `Series.groupby(keys).first()`: one entry per distinct key, keys
in ascending order, value = the first value (in row order) whose key
matches. -/
def groupbyFirst (keys : List Int) (vals : List Rat) : List (Int × Rat) :=
  (sortKeys keys.dedup).map fun k =>
    (k, ((keys.zip vals).find? fun kv => kv.1 = k).elim 0 fun kv => kv.2)

/-- `cps["tax_unit_weight"] = persons_family_weight.groupby(person_tax_unit_id).first()`.
The result is an association list from tax-unit id (ascending) to weight;
`none` models the exceptions pandas raises on a failed label lookup or a
length mismatch between the grouping key and the series. -/
def tax_unit_weight (ps : List PersonRow) (fs : List FamilyRow) :
    Option (List (Int × Rat)) :=
  match personsFamilyWeight ps fs with
  | none => none
  | some ws =>
    if ws.length = ps.length then
      some (groupbyFirst (ps.map fun p => p.TAX_ID) ws)
    else none

/-- The weight the design intends for tax unit `t`: the (100-scaled) weight
of the family containing the first person, in person-row order, whose
`person_tax_unit_id` equals `t`. -/
def firstPersonWeight (ps : List PersonRow) (fs : List FamilyRow) (t : Int) :
    Option Rat :=
  (ps.find? fun p => p.TAX_ID = t).bind fun p =>
    (fs.find? fun f => familyRowId f = personFamilyId p).map fun f =>
      f.FSUP_WGT / 100

/-! ### Demographic variables (`add_personal_variables`) -/

/-- `cps["age"] = np.where(person.A_AGE.between(80, 85), 80 + 5 * np.random.rand(len(person)), person.A_AGE)`.
The uniform draws are passed explicitly as `us` (one per person row). -/
def age (ps : List PersonRow) (us : List Rat) : List Rat :=
  (ps.zip us).map fun pu =>
    if 80 ≤ pu.1.A_AGE ∧ pu.1.A_AGE ≤ 85 then 80 + 5 * pu.2 else pu.1.A_AGE

/-! ### Income variables (`add_personal_income_variables`) -/

/-- `cps["employment_income"] = person.WSAL_VAL`. -/
def employment_income (ps : List PersonRow) : List Rat :=
  ps.map fun p => p.WSAL_VAL

/-- `cps["self_employment_income"] = person.SEMP_VAL`. -/
def self_employment_income (ps : List PersonRow) : List Rat :=
  ps.map fun p => p.SEMP_VAL

/-- `cps["e02100"] = person.FRSE_VAL`. -/
def e02100 (ps : List PersonRow) : List Rat :=
  ps.map fun p => p.FRSE_VAL

/-- `cps["social_security"] = person.SS_VAL`. -/
def social_security (ps : List PersonRow) : List Rat :=
  ps.map fun p => p.SS_VAL

/-- `cps["e02300"] = person.UC_VAL`. -/
def e02300 (ps : List PersonRow) : List Rat :=
  ps.map fun p => p.UC_VAL

/-- `cps["e01500"] = other_inc_type.isin((2, 13)) * person.OI_VAL`. -/
def e01500 (ps : List PersonRow) : List Rat :=
  ps.map fun p => if p.OI_OFF = 2 ∨ p.OI_OFF = 13 then p.OI_VAL else 0

/-- `cps["e00800"] = (person.OI_OFF == 20) * person.OI_VAL`. -/
def e00800 (ps : List PersonRow) : List Rat :=
  ps.map fun p => if p.OI_OFF = 20 then p.OI_VAL else 0

/-! ### SPM-unit variables (`add_spm_variables`) -/

/-- The fixed rename table `SPM_RENAMES` of the source: canonical name on
the left, raw SPM-unit field on the right. -/
def SPM_RENAMES : List (String × String) :=
  [("spm_unit_total_income", "SPM_TOTVAL"),
   ("snap", "SPM_SNAPSUB"),
   ("spm_unit_capped_housing_subsidy", "SPM_CAPHOUSESUB"),
   ("free_school_meals", "SPM_SCHLUNCH"),
   ("spm_unit_energy_subsidy", "SPM_ENGVAL"),
   ("spm_unit_wic", "SPM_WICVAL"),
   ("spm_unit_fica", "SPM_FICA"),
   ("spm_unit_federal_tax", "SPM_FEDTAX"),
   ("spm_unit_state_tax", "SPM_STTAX"),
   ("spm_unit_work_childcare_expenses", "SPM_CAPWKCCXPNS"),
   ("spm_unit_medical_expenses", "SPM_MEDXPNS"),
   ("spm_unit_spm_threshold", "SPM_POVTHRESHOLD"),
   ("spm_unit_net_income_reported", "SPM_RESOURCES")]

/-- Access a raw SPM-unit field by its raw name. -/
def spmField (r : SpmUnitRow) (name : String) : Rat :=
  if name = "SPM_TOTVAL" then r.SPM_TOTVAL
  else if name = "SPM_SNAPSUB" then r.SPM_SNAPSUB
  else if name = "SPM_CAPHOUSESUB" then r.SPM_CAPHOUSESUB
  else if name = "SPM_SCHLUNCH" then r.SPM_SCHLUNCH
  else if name = "SPM_ENGVAL" then r.SPM_ENGVAL
  else if name = "SPM_WICVAL" then r.SPM_WICVAL
  else if name = "SPM_FICA" then r.SPM_FICA
  else if name = "SPM_FEDTAX" then r.SPM_FEDTAX
  else if name = "SPM_STTAX" then r.SPM_STTAX
  else if name = "SPM_CAPWKCCXPNS" then r.SPM_CAPWKCCXPNS
  else if name = "SPM_MEDXPNS" then r.SPM_MEDXPNS
  else if name = "SPM_POVTHRESHOLD" then r.SPM_POVTHRESHOLD
  else if name = "SPM_RESOURCES" then r.SPM_RESOURCES
  else 0

/-- The columns written by `add_spm_variables`, in write order: one column
per rename-table entry (raw values copied unchanged), then
`reduced_price_school_meals = cps["free_school_meals"][...] * 0`. -/
def add_spm_variables (sus : List SpmUnitRow) : List (String × List Rat) :=
  (SPM_RENAMES.map fun pr => (pr.1, sus.map fun r => spmField r pr.2)) ++
    [("reduced_price_school_meals",
      (sus.map fun r => spmField r "SPM_SCHLUNCH").map fun x => x * 0)]

/-! ### Household variables (`add_household_variables`) -/

/-- `cps["fips"] = household.GESTFIPS`. -/
def fips (hhs : List HouseholdRow) : List Int :=
  hhs.map fun h => h.GESTFIPS

/-! ### Orchestration (`CPS.generate`)

`generate` opens the output h5py file, runs the five passes (each pass
assigns its columns to the open file in order), and only then calls
`raw_data.close()` and `cps.close()`.  The close calls sit on the straight
success path: an exception thrown by a pass (here: the `KeyError` from the
family-weight label lookup) propagates out of `generate` before them, so
the partially written artifact is left open. -/

/-- An integer column stored in the h5py file (h5py stores numerics; we
cast ids to `Rat` so all columns share one value type). -/
def intCol (l : List Int) : List Rat := l.map fun n => (n : Rat)

/-- The state of the output artifact: the columns written so far, and
whether `close()` was called on it. -/
structure CPSFile where
  columns : List (String × List Rat)
  closed : Bool
deriving DecidableEq, Repr

/-- The columns `add_id_variables` writes before the tax-unit-weight
computation, in source write order. -/
def idColsBeforeTaxWeight (ps : List PersonRow) (fs : List FamilyRow)
    (tus : List TaxUnitRow) (sus : List SpmUnitRow) (hhs : List HouseholdRow) :
    List (String × List Rat) :=
  [("person_id", intCol (person_id ps)),
   ("family_id", intCol (family_id fs)),
   ("household_id", intCol (household_id hhs)),
   ("person_tax_unit_id", intCol (person_tax_unit_id ps)),
   ("person_spm_unit_id", intCol (person_spm_unit_id ps)),
   ("tax_unit_id", intCol (tax_unit_id tus)),
   ("spm_unit_id", intCol (spm_unit_id sus)),
   ("person_household_id", intCol (person_household_id ps)),
   ("person_family_id", intCol (person_family_id ps)),
   ("person_weight", person_weight ps),
   ("family_weight", family_weight fs)]

/-- The `CPS.generate` entry point: runs the passes against the open
output file; returns the final artifact state and, on the failure path,
the propagated error.  Mirrors the source control flow: `close()` is only
reached after every pass succeeds. -/
def generate (ps : List PersonRow) (fs : List FamilyRow)
    (tus : List TaxUnitRow) (sus : List SpmUnitRow) (hhs : List HouseholdRow)
    (us : List Rat) : CPSFile × Option String :=
  let pre := idColsBeforeTaxWeight ps fs tus sus hhs
  match tax_unit_weight ps fs with
  | none =>
    ({ columns := pre, closed := false }, some "KeyError")
  | some tw =>
    let cols := pre ++
      [("tax_unit_weight", tw.map fun kv => kv.2),
       ("spm_unit_weight", spm_unit_weight sus),
       ("household_weight", household_weight hhs),
       ("age", age ps us),
       ("employment_income", employment_income ps),
       ("self_employment_income", self_employment_income ps),
       ("e02100", e02100 ps),
       ("social_security", social_security ps),
       ("e02300", e02300 ps),
       ("e01500", e01500 ps),
       ("e00800", e00800 ps)] ++
      add_spm_variables sus ++
      [("fips", intCol (fips hhs))]
    ({ columns := cols, closed := true }, none)

/-! ### Concrete fixtures -/

/-- A sample person row used to instantiate hypotheses on concrete data:
`PH_SEQ = 1`, `P_SEQ = 1`, `PF_SEQ = 1`, `TAX_ID = 1`, `SPM_ID = 3`,
`A_FNLWGT = 120`, `A_AGE = 79`, `WSAL_VAL = 1000`, `OI_OFF = 2`,
`OI_VAL = 500`, other income fields zero. -/
def samplePerson : PersonRow :=
  { PH_SEQ := 1, P_SEQ := 1, PF_SEQ := 1, TAX_ID := 1, SPM_ID := 3,
    A_FNLWGT := 120, A_AGE := 79, WSAL_VAL := 1000, SEMP_VAL := 0,
    FRSE_VAL := 0, SS_VAL := 0, UC_VAL := 0, OI_OFF := 2, OI_VAL := 500 }

/-- A second sample person: same tax unit as `samplePerson` but a
different family (`PH_SEQ = 2`, so `person_family_id = 21`), `OI_OFF = 20`. -/
def samplePerson2 : PersonRow :=
  { PH_SEQ := 2, P_SEQ := 1, PF_SEQ := 1, TAX_ID := 1, SPM_ID := 3,
    A_FNLWGT := 130, A_AGE := 82, WSAL_VAL := 0, SEMP_VAL := 0,
    FRSE_VAL := 0, SS_VAL := 0, UC_VAL := 0, OI_OFF := 20, OI_VAL := 300 }

/-- Family `11` with raw weight 100 (canonical weight 1). -/
def sampleFamilyA : FamilyRow := { FH_SEQ := 1, FFPOS := 1, FSUP_WGT := 100 }

/-- Family `21` with raw weight 200 (canonical weight 2). -/
def sampleFamilyB : FamilyRow := { FH_SEQ := 2, FFPOS := 1, FSUP_WGT := 200 }

/-- A sample SPM-unit row with distinct values in every raw field. -/
def sampleSpmUnit : SpmUnitRow :=
  { SPM_ID := 3, SPM_WEIGHT := 150, SPM_TOTVAL := 1, SPM_SNAPSUB := 2,
    SPM_CAPHOUSESUB := 3, SPM_SCHLUNCH := 4, SPM_ENGVAL := 5,
    SPM_WICVAL := 6, SPM_FICA := 7, SPM_FEDTAX := 8, SPM_STTAX := 9,
    SPM_CAPWKCCXPNS := 10, SPM_MEDXPNS := 11, SPM_POVTHRESHOLD := 12,
    SPM_RESOURCES := 13 }

/-- A sample household row. -/
def sampleHousehold : HouseholdRow :=
  { H_SEQ := 1, HSUP_WGT := 300, GESTFIPS := 6 }

/-- A sample tax-unit row with id 1. -/
def sampleTaxUnit : TaxUnitRow := { TAX_ID := 1 }

/-- A person in tax unit 2 and family 21 (used to exhibit the tax-unit
alignment failure). -/
def cexPersonT2 : PersonRow := { samplePerson2 with TAX_ID := 2 }

/-- A tax-unit table whose rows are NOT in ascending `TAX_ID` order. -/
def cexTaxUnits : List TaxUnitRow := [{ TAX_ID := 2 }, { TAX_ID := 1 }]

/-- A tax-unit table listing the distinct person tax-unit ids in ascending
order. -/
def sortedTaxUnits : List TaxUnitRow := [{ TAX_ID := 1 }, { TAX_ID := 2 }]

/-- The per-person resolved family weight (the value
`family_weight[person_family_id]` yields for one person when the family
index is unique): the weight of the family row found by that person's
foreign key, 0 if none is found. -/
def resolvedWeight (fs : List FamilyRow) (p : PersonRow) : Rat :=
  (fs.find? fun f => familyRowId f = personFamilyId p).elim 0
    fun f => f.FSUP_WGT / 100

/-! ### Helper lemmas -/

theorem filter_eq_of_nodup (fs : List FamilyRow) (fid : Int)
    (hnd : (fs.map familyRowId).Nodup) :
    fs.filter (fun f => familyRowId f = fid) =
      (fs.find? fun f => familyRowId f = fid).elim [] fun f => [f] := by
  induction fs with
  | nil => rfl
  | cons f rest ih =>
    rw [List.map_cons, List.nodup_cons] at hnd
    obtain ⟨hnotin, hnd'⟩ := hnd
    by_cases h : familyRowId f = fid
    · have hrest : rest.filter (fun g => familyRowId g = fid) = [] := by
        rw [List.filter_eq_nil_iff]
        intro g hg
        simp only [decide_eq_true_eq]
        intro hgf
        exact hnotin (List.mem_map.mpr ⟨g, hg, by rw [hgf, h]⟩)
      simp [List.filter_cons, List.find?_cons, h, hrest]
    · simp only [List.filter_cons, List.find?_cons]
      simp [h, ih hnd']

theorem lookupFamilyWeights_eq (fs : List FamilyRow) (fid : Int)
    (hnd : (fs.map familyRowId).Nodup) :
    lookupFamilyWeights fs fid =
      (fs.find? fun f => familyRowId f = fid).elim [] fun f =>
        [f.FSUP_WGT / 100] := by
  rw [lookupFamilyWeights, filter_eq_of_nodup fs fid hnd]
  cases fs.find? fun f => familyRowId f = fid <;> simp

theorem flatten_map_singleton {α β : Type} (l : List α) (g : α → List β)
    (h : α → β) (hg : ∀ a ∈ l, g a = [h a]) :
    (l.map g).flatten = l.map h := by
  induction l with
  | nil => rfl
  | cons a rest ih =>
    rw [List.map_cons, List.flatten_cons, hg a (List.mem_cons_self a rest),
      ih fun b hb => hg b (List.mem_cons_of_mem a hb), List.map_cons,
      List.singleton_append]

theorem personsFamilyWeight_eq (ps : List PersonRow) (fs : List FamilyRow)
    (hnd : (fs.map familyRowId).Nodup)
    (hres : ∀ p ∈ ps, ∃ f ∈ fs, familyRowId f = personFamilyId p) :
    personsFamilyWeight ps fs = some (ps.map (resolvedWeight fs)) := by
  have hlook : ∀ p ∈ ps, lookupFamilyWeights fs (personFamilyId p) =
      [resolvedWeight fs p] := by
    intro p hp
    obtain ⟨f, hf, hfid⟩ := hres p hp
    have hfind : (fs.find? fun g => familyRowId g = personFamilyId p).isSome := by
      rw [List.find?_isSome]
      exact ⟨f, hf, by simpa using hfid⟩
    obtain ⟨g, hg⟩ := Option.isSome_iff_exists.mp hfind
    rw [lookupFamilyWeights_eq fs _ hnd, resolvedWeight, hg]
    rfl
  rw [personsFamilyWeight, if_pos, flatten_map_singleton ps _ _ hlook]
  rw [List.all_eq_true]
  intro p hp
  rw [hlook p hp]
  rfl

theorem mem_insertSorted (x y : Int) (l : List Int) :
    y ∈ insertSorted x l ↔ y = x ∨ y ∈ l := by
  induction l with
  | nil => simp [insertSorted]
  | cons z zs ih =>
    rw [insertSorted]
    by_cases h : x ≤ z
    · simp [h]
    · rw [if_neg h]
      simp only [List.mem_cons, ih]
      tauto

theorem mem_sortKeys (l : List Int) (y : Int) : y ∈ sortKeys l ↔ y ∈ l := by
  induction l with
  | nil => simp [sortKeys]
  | cons x xs ih =>
    show y ∈ insertSorted x (sortKeys xs) ↔ _
    rw [mem_insertSorted, ih]
    simp [List.mem_cons]

theorem find?_key_self (l : List Int) (t : Int) (h : t ∈ l) :
    (l.find? fun k => k = t) = some t := by
  induction l with
  | nil => cases h
  | cons x xs ih =>
    rw [List.find?_cons]
    by_cases hx : x = t
    · subst hx
      simp
    · rw [List.mem_cons] at h
      simp only [hx, decide_eq_false hx]
      exact ih (h.resolve_left fun he => hx he.symm)

theorem groupbyFirst_zip_find (ps : List PersonRow) (w : PersonRow → Rat)
    (k : Int) :
    (((ps.map fun p => p.TAX_ID).zip (ps.map w)).find? fun kv => kv.1 = k) =
      (ps.find? fun p => p.TAX_ID = k).map fun p => (p.TAX_ID, w p) := by
  rw [List.zip_map']
  rw [List.find?_map]
  rfl

theorem groupbyFirst_mem (ps : List PersonRow) (w : PersonRow → Rat)
    (t : Int) (p0 : PersonRow)
    (hfind : ps.find? (fun p => p.TAX_ID = t) = some p0) :
    (t, w p0) ∈ groupbyFirst (ps.map fun p => p.TAX_ID) (ps.map w) := by
  have hp0 : p0 ∈ ps := List.mem_of_find?_eq_some hfind
  have hid : p0.TAX_ID = t := by simpa using List.find?_some hfind
  have hmem : t ∈ sortKeys ((ps.map fun p => p.TAX_ID).dedup) := by
    rw [mem_sortKeys, List.mem_dedup]
    exact List.mem_map.mpr ⟨p0, hp0, hid⟩
  rw [groupbyFirst]
  apply List.mem_map.mpr
  refine ⟨t, hmem, ?_⟩
  rw [groupbyFirst_zip_find ps w t, hfind]
  rfl

theorem groupbyFirst_elem (ps : List PersonRow) (w : PersonRow → Rat)
    (kv : Int × Rat)
    (hkv : kv ∈ groupbyFirst (ps.map fun p => p.TAX_ID) (ps.map w)) :
    ∃ p0, ps.find? (fun p => p.TAX_ID = kv.1) = some p0 ∧ kv.2 = w p0 := by
  rw [groupbyFirst] at hkv
  obtain ⟨k, hk, hkv'⟩ := List.mem_map.mp hkv
  rw [mem_sortKeys, List.mem_dedup] at hk
  obtain ⟨p, hp, hpk⟩ := List.mem_map.mp hk
  have hsome : (ps.find? fun q => q.TAX_ID = k).isSome := by
    rw [List.find?_isSome]
    exact ⟨p, hp, by simpa using hpk⟩
  obtain ⟨p0, hp0⟩ := Option.isSome_iff_exists.mp hsome
  subst hkv'
  refine ⟨p0, ?_, ?_⟩
  · simpa using hp0
  · rw [groupbyFirst_zip_find ps w k, hp0]
    rfl

theorem groupbyFirst_keys (keys : List Int) (vals : List Rat) :
    (groupbyFirst keys vals).map Prod.fst = sortKeys keys.dedup := by
  rw [groupbyFirst, List.map_map]
  have h : (Prod.fst ∘ fun k =>
      (k, ((keys.zip vals).find? fun kv => kv.1 = k).elim 0 fun kv => kv.2)) =
      id := rfl
  rw [h, List.map_id]

theorem tax_unit_weight_eq (ps : List PersonRow) (fs : List FamilyRow)
    (hnd : (fs.map familyRowId).Nodup)
    (hres : ∀ p ∈ ps, ∃ f ∈ fs, familyRowId f = personFamilyId p) :
    tax_unit_weight ps fs =
      some (groupbyFirst (ps.map fun p => p.TAX_ID)
        (ps.map (resolvedWeight fs))) := by
  rw [tax_unit_weight, personsFamilyWeight_eq ps fs hnd hres]
  simp

theorem personsFamilyWeight_mem (ps : List PersonRow) (fs : List FamilyRow)
    (ws : List Rat) (h : personsFamilyWeight ps fs = some ws) :
    ∀ w ∈ ws, ∃ f ∈ fs, w = f.FSUP_WGT / 100 := by
  rw [personsFamilyWeight] at h
  split at h
  · obtain rfl := Option.some.inj h
    intro w hw
    rw [List.mem_flatten] at hw
    obtain ⟨l, hl, hwl⟩ := hw
    obtain ⟨p, _, rfl⟩ := List.mem_map.mp hl
    rw [lookupFamilyWeights] at hwl
    obtain ⟨f, hf, rfl⟩ := List.mem_map.mp hwl
    exact ⟨f, (List.mem_filter.mp hf).1, rfl⟩
  · cases h

theorem tax_unit_weight_sample_eval :
    tax_unit_weight [samplePerson, samplePerson2]
      [sampleFamilyA, sampleFamilyB] = some [(1, 1)] := by
  norm_num [tax_unit_weight, personsFamilyWeight, lookupFamilyWeights,
    groupbyFirst, sortKeys, insertSorted, List.dedup, List.pwFilter,
    familyRowId, personFamilyId, samplePerson, samplePerson2,
    sampleFamilyA, sampleFamilyB, List.filter, List.all, List.find?]

theorem tax_unit_weight_cex_eval :
    tax_unit_weight [samplePerson, cexPersonT2]
      [sampleFamilyA, sampleFamilyB] = some [(1, 1), (2, 2)] := by
  norm_num [tax_unit_weight, personsFamilyWeight, lookupFamilyWeights,
    groupbyFirst, sortKeys, insertSorted, List.dedup, List.pwFilter,
    familyRowId, personFamilyId, samplePerson, samplePerson2, cexPersonT2,
    sampleFamilyA, sampleFamilyB, List.filter, List.all, List.find?]

theorem tax_unit_weight_nofamily_eval :
    tax_unit_weight [samplePerson] [] = none := by
  norm_num [tax_unit_weight, personsFamilyWeight, lookupFamilyWeights,
    samplePerson, personFamilyId, List.filter, List.all]

theorem tax_unit_weight_onefam_eval :
    tax_unit_weight [samplePerson] [sampleFamilyA] = some [(1, 1)] := by
  norm_num [tax_unit_weight, personsFamilyWeight, lookupFamilyWeights,
    groupbyFirst, sortKeys, insertSorted, List.dedup, List.pwFilter,
    familyRowId, personFamilyId, samplePerson, sampleFamilyA,
    List.filter, List.all, List.find?]

/-! ### Claim theorems -/

/-- C3: the synthetic identifier and foreign-key columns are computed
row-by-row, preserving input row order, by the pure arithmetic formulas
`person_id = PH_SEQ*100 + P_SEQ`, `family_id = FH_SEQ*10 + FFPOS`,
`household_id = H_SEQ`, `tax_unit_id = TAX_ID`, `spm_unit_id = SPM_ID`,
`person_household_id = PH_SEQ`, `person_family_id = PH_SEQ*10 + PF_SEQ`,
`person_tax_unit_id = TAX_ID`, `person_spm_unit_id = SPM_ID`. -/
theorem id_columns_rowwise (ps : List PersonRow) (fs : List FamilyRow)
    (tus : List TaxUnitRow) (sus : List SpmUnitRow) (hhs : List HouseholdRow)
    (i j k l m : Nat) (p : PersonRow) (f : FamilyRow) (tu : TaxUnitRow)
    (su : SpmUnitRow) (hr : HouseholdRow)
    (hp : ps[i]? = some p) (hf : fs[j]? = some f) (ht : tus[k]? = some tu)
    (hs : sus[l]? = some su) (hh : hhs[m]? = some hr) :
    (person_id ps)[i]? = some (p.PH_SEQ * 100 + p.P_SEQ) ∧
    (family_id fs)[j]? = some (f.FH_SEQ * 10 + f.FFPOS) ∧
    (household_id hhs)[m]? = some hr.H_SEQ ∧
    (tax_unit_id tus)[k]? = some tu.TAX_ID ∧
    (spm_unit_id sus)[l]? = some su.SPM_ID ∧
    (person_household_id ps)[i]? = some p.PH_SEQ ∧
    (person_family_id ps)[i]? = some (p.PH_SEQ * 10 + p.PF_SEQ) ∧
    (person_tax_unit_id ps)[i]? = some p.TAX_ID ∧
    (person_spm_unit_id ps)[i]? = some p.SPM_ID := by
  simp [person_id, family_id, household_id, tax_unit_id, spm_unit_id,
    person_household_id, person_family_id, person_tax_unit_id,
    person_spm_unit_id, familyRowId, personFamilyId,
    List.getElem?_map, hp, hf, ht, hs, hh]

/-- Witness for C3 at concrete rows. -/
theorem id_columns_rowwise_witness :
    (person_id [samplePerson])[0]? = some (samplePerson.PH_SEQ * 100 + samplePerson.P_SEQ) ∧
    (family_id [sampleFamilyA])[0]? = some (sampleFamilyA.FH_SEQ * 10 + sampleFamilyA.FFPOS) ∧
    (household_id [sampleHousehold])[0]? = some sampleHousehold.H_SEQ ∧
    (tax_unit_id [sampleTaxUnit])[0]? = some sampleTaxUnit.TAX_ID ∧
    (spm_unit_id [sampleSpmUnit])[0]? = some sampleSpmUnit.SPM_ID ∧
    (person_household_id [samplePerson])[0]? = some samplePerson.PH_SEQ ∧
    (person_family_id [samplePerson])[0]? = some (samplePerson.PH_SEQ * 10 + samplePerson.PF_SEQ) ∧
    (person_tax_unit_id [samplePerson])[0]? = some samplePerson.TAX_ID ∧
    (person_spm_unit_id [samplePerson])[0]? = some samplePerson.SPM_ID :=
  id_columns_rowwise [samplePerson] [sampleFamilyA] [sampleTaxUnit]
    [sampleSpmUnit] [sampleHousehold] 0 0 0 0 0 samplePerson sampleFamilyA
    sampleTaxUnit sampleSpmUnit sampleHousehold rfl rfl rfl rfl rfl

/-- C4: the family, SPM-unit and household weight columns equal the raw
weight fields `FSUP_WGT`, `SPM_WEIGHT`, `HSUP_WGT` divided element-wise by
100, in raw row order. -/
theorem direct_weights_rowwise (fs : List FamilyRow) (sus : List SpmUnitRow)
    (hhs : List HouseholdRow) (j l m : Nat) (f : FamilyRow) (su : SpmUnitRow)
    (hr : HouseholdRow)
    (hf : fs[j]? = some f) (hs : sus[l]? = some su) (hh : hhs[m]? = some hr) :
    (family_weight fs)[j]? = some (f.FSUP_WGT / 100) ∧
    (spm_unit_weight sus)[l]? = some (su.SPM_WEIGHT / 100) ∧
    (household_weight hhs)[m]? = some (hr.HSUP_WGT / 100) := by
  simp [family_weight, spm_unit_weight, household_weight,
    List.getElem?_map, hf, hs, hh]

/-- Witness for C4 at concrete rows. -/
theorem direct_weights_rowwise_witness :
    (family_weight [sampleFamilyA])[0]? = some (sampleFamilyA.FSUP_WGT / 100) ∧
    (spm_unit_weight [sampleSpmUnit])[0]? = some (sampleSpmUnit.SPM_WEIGHT / 100) ∧
    (household_weight [sampleHousehold])[0]? = some (sampleHousehold.HSUP_WGT / 100) :=
  direct_weights_rowwise [sampleFamilyA] [sampleSpmUnit] [sampleHousehold]
    0 0 0 sampleFamilyA sampleSpmUnit sampleHousehold rfl rfl rfl

/-- C10: the pipeline also emits a `person_weight` column equal to the raw
person field `A_FNLWGT` divided by 100, one entry per person row in
person-table order, and this column is among the columns `generate` writes. -/
theorem person_weight_emitted (ps : List PersonRow) (fs : List FamilyRow)
    (tus : List TaxUnitRow) (sus : List SpmUnitRow) (hhs : List HouseholdRow)
    (i : Nat) (p : PersonRow) (hp : ps[i]? = some p) :
    (person_weight ps)[i]? = some (p.A_FNLWGT / 100) ∧
    (person_weight ps).length = ps.length ∧
    ("person_weight", person_weight ps) ∈
      idColsBeforeTaxWeight ps fs tus sus hhs := by
  refine ⟨?_, ?_, ?_⟩
  · simp [person_weight, List.getElem?_map, hp]
  · simp [person_weight]
  · simp [idColsBeforeTaxWeight]

/-- Witness for C10 at a concrete row. -/
theorem person_weight_emitted_witness :
    (person_weight [samplePerson])[0]? = some (samplePerson.A_FNLWGT / 100) ∧
    (person_weight [samplePerson]).length = [samplePerson].length ∧
    ("person_weight", person_weight [samplePerson]) ∈
      idColsBeforeTaxWeight [samplePerson] [sampleFamilyA] [sampleTaxUnit]
        [sampleSpmUnit] [sampleHousehold] :=
  person_weight_emitted [samplePerson] [sampleFamilyA] [sampleTaxUnit]
    [sampleSpmUnit] [sampleHousehold] 0 samplePerson rfl

/-- C6: `e01500` equals `OI_VAL` exactly when `OI_OFF ∈ {2, 13}` (else 0),
`e00800` equals `OI_VAL` exactly when `OI_OFF = 20` (else 0), and the two
conditions are mutually exclusive, so a type code matching neither yields
0 for both. -/
theorem other_income_disaggregation (ps : List PersonRow) (i : Nat)
    (p : PersonRow) (hp : ps[i]? = some p) :
    ((p.OI_OFF = 2 ∨ p.OI_OFF = 13) →
      (e01500 ps)[i]? = some p.OI_VAL ∧ (e00800 ps)[i]? = some 0) ∧
    (p.OI_OFF = 20 →
      (e00800 ps)[i]? = some p.OI_VAL ∧ (e01500 ps)[i]? = some 0) ∧
    (¬(p.OI_OFF = 2 ∨ p.OI_OFF = 13) → ¬p.OI_OFF = 20 →
      (e01500 ps)[i]? = some 0 ∧ (e00800 ps)[i]? = some 0) ∧
    ¬((p.OI_OFF = 2 ∨ p.OI_OFF = 13) ∧ p.OI_OFF = 20) := by
  refine ⟨fun h2 => ?_, fun h20 => ?_, fun hn2 hn20 => ?_, fun hboth => ?_⟩
  · have : ¬p.OI_OFF = 20 := by rcases h2 with h | h <;> omega
    simp [e01500, e00800, List.getElem?_map, hp, h2, this]
  · have : ¬(p.OI_OFF = 2 ∨ p.OI_OFF = 13) := by omega
    simp [e01500, e00800, List.getElem?_map, hp, h20, this]
  · simp [e01500, e00800, List.getElem?_map, hp, hn2, hn20]
  · rcases hboth with ⟨h | h, h20⟩ <;> omega

/-- Witness for C6 at a concrete row with type code 2 and amount 500. -/
theorem other_income_disaggregation_witness :
    ((samplePerson.OI_OFF = 2 ∨ samplePerson.OI_OFF = 13) →
      (e01500 [samplePerson])[0]? = some samplePerson.OI_VAL ∧
      (e00800 [samplePerson])[0]? = some 0) ∧
    (samplePerson.OI_OFF = 20 →
      (e00800 [samplePerson])[0]? = some samplePerson.OI_VAL ∧
      (e01500 [samplePerson])[0]? = some 0) ∧
    (¬(samplePerson.OI_OFF = 2 ∨ samplePerson.OI_OFF = 13) →
      ¬samplePerson.OI_OFF = 20 →
      (e01500 [samplePerson])[0]? = some 0 ∧
      (e00800 [samplePerson])[0]? = some 0) ∧
    ¬((samplePerson.OI_OFF = 2 ∨ samplePerson.OI_OFF = 13) ∧
      samplePerson.OI_OFF = 20) :=
  other_income_disaggregation [samplePerson] 0 samplePerson rfl

/-- C1: the tax-unit weight of each tax unit equals the family weight
(raw family weight divided by 100) of the family containing the first
person, in person-table row order, whose `person_tax_unit_id` equals that
tax unit's id; the first member's family weight wins, with no averaging. -/
theorem tax_unit_weight_first_member (ps : List PersonRow)
    (fs : List FamilyRow) (t : Int) (p0 : PersonRow) (f0 : FamilyRow)
    (hnd : (fs.map familyRowId).Nodup)
    (hres : ∀ p ∈ ps, ∃ f ∈ fs, familyRowId f = personFamilyId p)
    (hfirst : ps.find? (fun p => p.TAX_ID = t) = some p0)
    (hfam : fs.find? (fun f => familyRowId f = personFamilyId p0) = some f0) :
    ∃ tw, tax_unit_weight ps fs = some tw ∧
      tw.find? (fun kv => kv.1 = t) = some (t, f0.FSUP_WGT / 100) := by
  refine ⟨_, tax_unit_weight_eq ps fs hnd hres, ?_⟩
  rw [groupbyFirst, List.find?_map]
  have hcomp : ((fun kv : Int × Rat => decide (kv.1 = t)) ∘ fun k =>
      (k, (((ps.map fun p => p.TAX_ID).zip
        (ps.map (resolvedWeight fs))).find? fun kv => kv.1 = k).elim 0
          fun kv => kv.2)) = fun k => decide (k = t) := rfl
  rw [hcomp]
  have ht : t ∈ sortKeys ((ps.map fun p => p.TAX_ID).dedup) := by
    rw [mem_sortKeys, List.mem_dedup]
    exact List.mem_map.mpr ⟨p0, List.mem_of_find?_eq_some hfirst,
      by simpa using List.find?_some hfirst⟩
  rw [find?_key_self _ t ht, Option.map_some']
  have hv : (((ps.map fun p => p.TAX_ID).zip
      (ps.map (resolvedWeight fs))).find? fun kv => kv.1 = t).elim 0
        (fun kv => kv.2) = f0.FSUP_WGT / 100 := by
    rw [groupbyFirst_zip_find ps (resolvedWeight fs) t, hfirst]
    show resolvedWeight fs p0 = f0.FSUP_WGT / 100
    rw [resolvedWeight, hfam]
    rfl
  rw [hv]

/-- Witness for C1: two persons share tax unit 1 but belong to families
11 (weight 1) and 21 (weight 2); the first member's family weight wins. -/
theorem tax_unit_weight_first_member_witness :
    ∃ tw, tax_unit_weight [samplePerson, samplePerson2]
        [sampleFamilyA, sampleFamilyB] = some tw ∧
      tw.find? (fun kv => kv.1 = 1) =
        some (1, sampleFamilyA.FSUP_WGT / 100) :=
  tax_unit_weight_first_member [samplePerson, samplePerson2]
    [sampleFamilyA, sampleFamilyB] 1 samplePerson sampleFamilyA
    (by decide) (by decide) (by decide) (by decide)

/-- C7: when every raw weight field is non-negative, every output weight
column is non-negative in every row, including the derived tax-unit
weight obtained through the family-weight lookup and first-per-group
selection. -/
theorem weights_nonneg (ps : List PersonRow) (fs : List FamilyRow)
    (sus : List SpmUnitRow) (hhs : List HouseholdRow) (tw : List (Int × Rat))
    (hpw : ∀ p ∈ ps, 0 ≤ p.A_FNLWGT) (hfw : ∀ f ∈ fs, 0 ≤ f.FSUP_WGT)
    (hsw : ∀ s ∈ sus, 0 ≤ s.SPM_WEIGHT) (hhw : ∀ h ∈ hhs, 0 ≤ h.HSUP_WGT)
    (htw : tax_unit_weight ps fs = some tw) :
    (∀ w ∈ person_weight ps, 0 ≤ w) ∧ (∀ w ∈ family_weight fs, 0 ≤ w) ∧
    (∀ w ∈ spm_unit_weight sus, 0 ≤ w) ∧
    (∀ w ∈ household_weight hhs, 0 ≤ w) ∧ (∀ kv ∈ tw, 0 ≤ kv.2) := by
  refine ⟨?_, ?_, ?_, ?_, ?_⟩
  · intro w hw
    obtain ⟨p, hp, rfl⟩ := List.mem_map.mp hw
    exact div_nonneg (hpw p hp) (by norm_num)
  · intro w hw
    obtain ⟨f, hf, rfl⟩ := List.mem_map.mp hw
    exact div_nonneg (hfw f hf) (by norm_num)
  · intro w hw
    obtain ⟨s, hs, rfl⟩ := List.mem_map.mp hw
    exact div_nonneg (hsw s hs) (by norm_num)
  · intro w hw
    obtain ⟨h, hh, rfl⟩ := List.mem_map.mp hw
    exact div_nonneg (hhw h hh) (by norm_num)
  · rw [tax_unit_weight] at htw
    split at htw
    · cases htw
    · rename_i ws hws
      split at htw
      · obtain rfl := Option.some.inj htw
        intro kv hkv
        rw [groupbyFirst] at hkv
        obtain ⟨k, hk, rfl⟩ := List.mem_map.mp hkv
        show 0 ≤ (((ps.map fun p => p.TAX_ID).zip ws).find? fun kv =>
          kv.1 = k).elim 0 fun kv => kv.2
        cases hfind : ((ps.map fun p => p.TAX_ID).zip ws).find? fun kv =>
            kv.1 = k with
        | none => exact le_refl 0
        | some kv' =>
          obtain ⟨a, b⟩ := kv'
          have hb : b ∈ ws :=
            (List.of_mem_zip (List.mem_of_find?_eq_some hfind)).2
          obtain ⟨f, hf, rfl⟩ := personsFamilyWeight_mem ps fs ws hws b hb
          exact div_nonneg (hfw f hf) (by norm_num)
      · cases htw

/-- Witness for C7: all five weight columns are non-negative on the
concrete two-person fixture. -/
theorem weights_nonneg_witness :
    (∀ w ∈ person_weight [samplePerson, samplePerson2], 0 ≤ w) ∧
    (∀ w ∈ family_weight [sampleFamilyA, sampleFamilyB], 0 ≤ w) ∧
    (∀ w ∈ spm_unit_weight [sampleSpmUnit], 0 ≤ w) ∧
    (∀ w ∈ household_weight [sampleHousehold], 0 ≤ w) ∧
    (∀ kv ∈ [((1 : Int), (1 : Rat))], 0 ≤ kv.2) :=
  weights_nonneg [samplePerson, samplePerson2] [sampleFamilyA, sampleFamilyB]
    [sampleSpmUnit] [sampleHousehold] [(1, 1)]
    (by decide) (by decide) (by decide) (by decide)
    tax_unit_weight_sample_eval

/-- C5: with the uniform draws passed explicitly, a person whose raw
`A_AGE` lies outside the closed range `[80, 85]` keeps it exactly, and a
person whose raw age lies in `[80, 85]` gets `80 + 5 * u`, which lies in
the half-open interval `[80, 85)` when `0 ≤ u < 1`. -/
theorem age_recoding (ps : List PersonRow) (us : List Rat) (i : Nat)
    (p : PersonRow) (u : Rat)
    (hp : ps[i]? = some p) (hu : us[i]? = some u)
    (hu0 : 0 ≤ u) (hu1 : u < 1) :
    (¬(80 ≤ p.A_AGE ∧ p.A_AGE ≤ 85) → (age ps us)[i]? = some p.A_AGE) ∧
    ((80 ≤ p.A_AGE ∧ p.A_AGE ≤ 85) →
      (age ps us)[i]? = some (80 + 5 * u) ∧
      (80 : Rat) ≤ 80 + 5 * u ∧ 80 + 5 * u < 85) := by
  have hz : (ps.zip us)[i]? = some (p, u) := by
    rw [List.getElem?_zip_eq_some]
    exact ⟨hp, hu⟩
  constructor
  · intro hout
    simp [age, List.getElem?_map, hz, hout]
  · intro hin
    refine ⟨by simp [age, List.getElem?_map, hz, hin], by linarith, by linarith⟩

/-- Witness for C5: one person below the top-code range (age 79, kept) and
one inside it (age 82, jittered with draw `u = 1/2` to `82.5`). -/
theorem age_recoding_witness :
    ((¬(80 ≤ samplePerson.A_AGE ∧ samplePerson.A_AGE ≤ 85) →
      (age [samplePerson, samplePerson2] [1/2, 1/2])[0]? = some samplePerson.A_AGE) ∧
     ((80 ≤ samplePerson.A_AGE ∧ samplePerson.A_AGE ≤ 85) →
      (age [samplePerson, samplePerson2] [1/2, 1/2])[0]? = some (80 + 5 * (1/2)) ∧
      (80 : Rat) ≤ 80 + 5 * (1/2) ∧ (80 : Rat) + 5 * (1/2) < 85)) ∧
    ((¬(80 ≤ samplePerson2.A_AGE ∧ samplePerson2.A_AGE ≤ 85) →
      (age [samplePerson, samplePerson2] [1/2, 1/2])[1]? = some samplePerson2.A_AGE) ∧
     ((80 ≤ samplePerson2.A_AGE ∧ samplePerson2.A_AGE ≤ 85) →
      (age [samplePerson, samplePerson2] [1/2, 1/2])[1]? = some (80 + 5 * (1/2)) ∧
      (80 : Rat) ≤ 80 + 5 * (1/2) ∧ (80 : Rat) + 5 * (1/2) < 85)) :=
  ⟨age_recoding [samplePerson, samplePerson2] [1/2, 1/2] 0 samplePerson (1/2)
      rfl rfl (by norm_num) (by norm_num),
   age_recoding [samplePerson, samplePerson2] [1/2, 1/2] 1 samplePerson2 (1/2)
      rfl rfl (by norm_num) (by norm_num)⟩

/-- C2 fails as stated: on a raw input whose tax-unit table rows are not
in ascending `TAX_ID` order, the 0-th entry of the tax-unit weight column
is 1 (the weight derived for tax unit 1), while the 0-th entry of
`tax_unit_id` is 2 and the weight belonging to tax unit 2 is 2 — the
weight column is indexed by sorted distinct `person_tax_unit_id`, not by
tax-unit-table row order. -/
theorem tax_unit_weight_misaligned :
    tax_unit_weight [samplePerson, cexPersonT2]
      [sampleFamilyA, sampleFamilyB] = some [(1, 1), (2, 2)] ∧
    ([((1 : Int), (1 : Rat)), (2, 2)].map Prod.snd)[0]? = some 1 ∧
    (tax_unit_id cexTaxUnits)[0]? = some 2 ∧
    firstPersonWeight [samplePerson, cexPersonT2]
      [sampleFamilyA, sampleFamilyB] 2 = some 2 ∧
    (1 : Rat) ≠ 2 := by
  refine ⟨tax_unit_weight_cex_eval, by decide, by decide, ?_, by decide⟩
  norm_num [firstPersonWeight, samplePerson, cexPersonT2, samplePerson2,
    sampleFamilyA, sampleFamilyB, familyRowId, personFamilyId, List.find?]

/-- C2 amended: every canonical column at the person, family, SPM-unit and
household levels has the same length as (and is positionally aligned
with) its entity's id column, because each is a row-order map of the same
table; for the tax-unit level, the weight column is keyed by sorted
distinct `person_tax_unit_id`, so it is aligned with `tax_unit_id` exactly
when the tax-unit table lists those ids in ascending order — in which
case the i-th weight is the weight belonging to the i-th tax-unit id. -/
theorem columns_aligned (ps : List PersonRow) (fs : List FamilyRow)
    (tus : List TaxUnitRow) (sus : List SpmUnitRow) (hhs : List HouseholdRow)
    (us : List Rat) (tw : List (Int × Rat))
    (hus : us.length = ps.length)
    (hnd : (fs.map familyRowId).Nodup)
    (hres : ∀ p ∈ ps, ∃ f ∈ fs, familyRowId f = personFamilyId p)
    (htw : tax_unit_weight ps fs = some tw)
    (hsorted : tus.map (fun t => t.TAX_ID) =
      sortKeys ((ps.map fun p => p.TAX_ID).dedup)) :
    ((person_id ps).length = ps.length ∧
     (person_tax_unit_id ps).length = ps.length ∧
     (person_spm_unit_id ps).length = ps.length ∧
     (person_household_id ps).length = ps.length ∧
     (person_family_id ps).length = ps.length ∧
     (person_weight ps).length = ps.length ∧
     (age ps us).length = ps.length ∧
     (employment_income ps).length = ps.length ∧
     (self_employment_income ps).length = ps.length ∧
     (e02100 ps).length = ps.length ∧
     (social_security ps).length = ps.length ∧
     (e02300 ps).length = ps.length ∧
     (e01500 ps).length = ps.length ∧
     (e00800 ps).length = ps.length) ∧
    (family_weight fs).length = (family_id fs).length ∧
    ((spm_unit_weight sus).length = (spm_unit_id sus).length ∧
     ∀ c ∈ add_spm_variables sus, c.2.length = (spm_unit_id sus).length) ∧
    ((household_weight hhs).length = (household_id hhs).length ∧
     (fips hhs).length = (household_id hhs).length) ∧
    (tw.map Prod.fst = tax_unit_id tus ∧
     ∀ kv ∈ tw, firstPersonWeight ps fs kv.1 = some kv.2) := by
  have htw' : tw = groupbyFirst (ps.map fun p => p.TAX_ID)
      (ps.map (resolvedWeight fs)) := by
    have h := tax_unit_weight_eq ps fs hnd hres
    rw [htw] at h
    exact Option.some.inj h
  refine ⟨⟨?_, ?_, ?_, ?_, ?_, ?_, ?_, ?_, ?_, ?_, ?_, ?_, ?_, ?_⟩,
    ?_, ⟨?_, ?_⟩, ⟨?_, ?_⟩, ⟨?_, ?_⟩⟩
  · simp [person_id]
  · simp [person_tax_unit_id]
  · simp [person_spm_unit_id]
  · simp [person_household_id]
  · simp [person_family_id]
  · simp [person_weight]
  · simp [age, hus]
  · simp [employment_income]
  · simp [self_employment_income]
  · simp [e02100]
  · simp [social_security]
  · simp [e02300]
  · simp [e01500]
  · simp [e00800]
  · simp [family_weight, family_id]
  · simp [spm_unit_weight, spm_unit_id]
  · intro c hc
    rw [add_spm_variables] at hc
    rcases List.mem_append.mp hc with hl | hr
    · obtain ⟨pr, _, rfl⟩ := List.mem_map.mp hl
      simp [spm_unit_id]
    · rw [List.mem_singleton] at hr
      subst hr
      simp [spm_unit_id]
  · simp [household_weight, household_id]
  · simp [fips, household_id]
  · rw [htw', groupbyFirst_keys, ← hsorted]
    rfl
  · intro kv hkv
    rw [htw'] at hkv
    obtain ⟨p0, hp0, hv⟩ := groupbyFirst_elem ps (resolvedWeight fs) kv hkv
    rw [firstPersonWeight, hp0]
    show (fs.find? fun f => familyRowId f = personFamilyId p0).map
      (fun f => f.FSUP_WGT / 100) = some kv.2
    obtain ⟨f, hf, hfid⟩ := hres p0 (List.mem_of_find?_eq_some hp0)
    have hsome : (fs.find? fun g => familyRowId g = personFamilyId p0).isSome := by
      rw [List.find?_isSome]
      exact ⟨f, hf, by simpa using hfid⟩
    obtain ⟨f0, hf0⟩ := Option.isSome_iff_exists.mp hsome
    rw [hf0, Option.map_some', hv, resolvedWeight, hf0]
    rfl

/-- Witness for the amended C2 on the two-person fixture with a sorted
tax-unit table. -/
theorem columns_aligned_witness :
    ((person_id [samplePerson, cexPersonT2]).length = 2 ∧
     (person_tax_unit_id [samplePerson, cexPersonT2]).length = 2 ∧
     (person_spm_unit_id [samplePerson, cexPersonT2]).length = 2 ∧
     (person_household_id [samplePerson, cexPersonT2]).length = 2 ∧
     (person_family_id [samplePerson, cexPersonT2]).length = 2 ∧
     (person_weight [samplePerson, cexPersonT2]).length = 2 ∧
     (age [samplePerson, cexPersonT2] [1/2, 1/2]).length = 2 ∧
     (employment_income [samplePerson, cexPersonT2]).length = 2 ∧
     (self_employment_income [samplePerson, cexPersonT2]).length = 2 ∧
     (e02100 [samplePerson, cexPersonT2]).length = 2 ∧
     (social_security [samplePerson, cexPersonT2]).length = 2 ∧
     (e02300 [samplePerson, cexPersonT2]).length = 2 ∧
     (e01500 [samplePerson, cexPersonT2]).length = 2 ∧
     (e00800 [samplePerson, cexPersonT2]).length = 2) ∧
    (family_weight [sampleFamilyA, sampleFamilyB]).length =
      (family_id [sampleFamilyA, sampleFamilyB]).length ∧
    ((spm_unit_weight [sampleSpmUnit]).length =
      (spm_unit_id [sampleSpmUnit]).length ∧
     ∀ c ∈ add_spm_variables [sampleSpmUnit],
       c.2.length = (spm_unit_id [sampleSpmUnit]).length) ∧
    ((household_weight [sampleHousehold]).length =
      (household_id [sampleHousehold]).length ∧
     (fips [sampleHousehold]).length =
      (household_id [sampleHousehold]).length) ∧
    (([((1 : Int), (1 : Rat)), (2, 2)]).map Prod.fst =
      tax_unit_id sortedTaxUnits ∧
     ∀ kv ∈ [((1 : Int), (1 : Rat)), (2, 2)],
       firstPersonWeight [samplePerson, cexPersonT2]
         [sampleFamilyA, sampleFamilyB] kv.1 = some kv.2) :=
  columns_aligned [samplePerson, cexPersonT2] [sampleFamilyA, sampleFamilyB]
    sortedTaxUnits [sampleSpmUnit] [sampleHousehold] [1/2, 1/2]
    [(1, 1), (2, 2)] (by decide) (by decide) (by decide)
    tax_unit_weight_cex_eval (by decide)

/-- C8 as stated is false: the fixed SPM rename table has thirteen
entries, not fourteen. -/
theorem spm_rename_table_not_fourteen :
    SPM_RENAMES.length = 13 ∧ ¬SPM_RENAMES.length = 14 := by decide

/-- C8 amended: the SPM/benefit-unit pass copies exactly thirteen raw
SPM-unit fields one-to-one (both sides of the rename table are
duplicate-free) onto canonical variable names, with no value transform:
the j-th written column carries the j-th canonical name and the raw field
values unchanged, row by row. -/
theorem spm_renames_copied (sus : List SpmUnitRow) (i j : Nat)
    (su : SpmUnitRow) (pr : String × String)
    (hsu : sus[i]? = some su) (hpr : SPM_RENAMES[j]? = some pr) :
    SPM_RENAMES.length = 13 ∧
    (SPM_RENAMES.map Prod.fst).Nodup ∧
    (SPM_RENAMES.map Prod.snd).Nodup ∧
    (add_spm_variables sus)[j]? =
      some (pr.1, sus.map fun r => spmField r pr.2) ∧
    (sus.map fun r => spmField r pr.2)[i]? = some (spmField su pr.2) := by
  have hj : j < SPM_RENAMES.length := by
    by_contra hge
    rw [List.getElem?_eq_none (Nat.le_of_not_lt hge)] at hpr
    cases hpr
  refine ⟨by decide, by decide, by decide, ?_, ?_⟩
  · rw [add_spm_variables, List.getElem?_append, if_pos (by simpa using hj),
      List.getElem?_map, hpr]
    rfl
  · rw [List.getElem?_map, hsu]
    rfl

/-- Witness for the amended C8 at the first rename-table entry and a
concrete SPM-unit row. -/
theorem spm_renames_copied_witness :
    SPM_RENAMES.length = 13 ∧
    (SPM_RENAMES.map Prod.fst).Nodup ∧
    (SPM_RENAMES.map Prod.snd).Nodup ∧
    (add_spm_variables [sampleSpmUnit])[0]? =
      some ("spm_unit_total_income",
        [sampleSpmUnit].map fun r => spmField r "SPM_TOTVAL") ∧
    ([sampleSpmUnit].map fun r => spmField r "SPM_TOTVAL")[0]? =
      some (spmField sampleSpmUnit "SPM_TOTVAL") :=
  spm_renames_copied [sampleSpmUnit] 0 0 sampleSpmUnit
    ("spm_unit_total_income", "SPM_TOTVAL") rfl rfl

/-- C9 (code defect): on a raw input where the family-weight label lookup
fails, `generate` propagates the error without reaching `close()`: the
partially written artifact (the columns assigned before the failure) is
left open and non-empty.  On the success path the artifact is closed. -/
theorem artifact_left_open_on_failure :
    (generate [samplePerson] [] [] [] [] []).2 = some "KeyError" ∧
    (generate [samplePerson] [] [] [] [] []).1.closed = false ∧
    (generate [samplePerson] [] [] [] [] []).1.columns ≠ [] ∧
    (generate [samplePerson] [sampleFamilyA] [] [] [] []).2 = none ∧
    (generate [samplePerson] [sampleFamilyA] [] [] [] []).1.closed = true := by
  refine ⟨?_, ?_, ?_, ?_, ?_⟩ <;>
    simp [generate, tax_unit_weight_nofamily_eval,
      tax_unit_weight_onefam_eval, idColsBeforeTaxWeight]

end CPS
